import Mathlib

/-!
Verification of the FocusFlow agenda/timer/calendar core.

This file is a shallow embedding of the agenda scheduler, focus timer and
calendar exporter implemented in the front-end application component
(src/unnamed/part_000, which matches src/frontend/src/App.tsx).  Pure
derivations (`agendaTasks`, `focusSuggestion`, `buildCalendarExport`,
`arrayMove`) become Lean functions on lists; the timer's React state
(`activeTimerId`, `timerSeconds`, `timerTargetSeconds`, `timerStartRef`,
`timerAlarmFiredRef`) becomes an explicit `TimerState` record, and the
handlers (`startTimer`, the tick/expiry effects, `stopTimer`) become state
transformers.  Store (`taskApi.update`) requests are returned explicitly as
data.  JavaScript numbers that the code only ever uses as non-negative
integers (ids, minutes, seconds, ranks, millisecond instants) are embedded
as `Nat`.
-/

namespace FocusFlow

/-- Task status, from the `status: "open" | "done" | "snoozed"` union in
src/frontend/src/types.ts.  `open` is a Lean keyword, hence `open_`. -/
inductive Status where
  | open_
  | done
  | snoozed
deriving DecidableEq, Repr

/-- The `Task` record from src/frontend/src/types.ts, restricted to the
fields the agenda/timer/calendar core reads or writes: `id`, `title`,
`status`, `priority`, `estimated_minutes`, `actual_minutes`, `is_focus`,
`focus_rank`.  Optional numeric fields are `Option Nat` (absence models
`null`/`undefined`). -/
structure Task where
  id : Nat
  title : String
  status : Status
  priority : Nat
  estimated_minutes : Option Nat
  actual_minutes : Option Nat
  is_focus : Bool
  focus_rank : Option Nat
deriving DecidableEq, Repr

/-! ### Agenda derivations (src/unnamed/part_000 lines 346-394) -/

/-- The sort key used by `agendaTasks`: `a.focus_rank ?? 99999`
(line 392). -/
def rankKey (t : Task) : Nat :=
  t.focus_rank.getD 99999

/-- The total preorder induced by the `agendaTasks` comparator
`(a.focus_rank ?? 99999) - (b.focus_rank ?? 99999) || a.id - b.id`
(lines 390-393): `a` sorts no later than `b` iff the comparator is `<= 0`. -/
def agendaLe (a b : Task) : Prop :=
  rankKey a < rankKey b ∨ (rankKey a = rankKey b ∧ a.id ≤ b.id)

instance : DecidableRel agendaLe := fun a b => by
  unfold agendaLe
  infer_instance

instance : IsTotal Task agendaLe := by
  constructor
  intro a b
  unfold agendaLe
  rcases Nat.lt_trichotomy (rankKey a) (rankKey b) with h | h | h
  · exact Or.inl (Or.inl h)
  · rcases Nat.le_total a.id b.id with h2 | h2
    · exact Or.inl (Or.inr ⟨h, h2⟩)
    · exact Or.inr (Or.inr ⟨h.symm, h2⟩)
  · exact Or.inr (Or.inl h)

instance : IsTrans Task agendaLe := by
  constructor
  intro a b c hab hbc
  unfold agendaLe at hab hbc ⊢
  rcases hab with h1 | ⟨h1, h1b⟩ <;> rcases hbc with h2 | ⟨h2, h2b⟩
  · exact Or.inl (h1.trans h2)
  · exact Or.inl (h2 ▸ h1)
  · exact Or.inl (h1 ▸ h2)
  · exact Or.inr ⟨h1.trans h2, h1b.trans h2b⟩

/-- The `agendaTasks` memo (lines 387-394): filter the focus-flagged tasks
and sort them with the comparator above.  `Array.prototype.sort` is a
stable sort, embedded here as Mathlib's stable `insertionSort`. -/
def agendaTasks (tasks : List Task) : List Task :=
  (tasks.filter (fun t => t.is_focus)).insertionSort agendaLe

/-- The `focusTasks` memo (lines 346-349): `tasks.filter(t => t.is_focus)`. -/
def focusTasks (tasks : List Task) : List Task :=
  tasks.filter (fun t => t.is_focus)

/-- The `focusOpenTasks` memo (lines 351-354):
`focusTasks.filter(t => t.status !== "done")`. -/
def focusOpenTasks (tasks : List Task) : List Task :=
  (focusTasks tasks).filter (fun t => t.status != Status.done)

/-- The `focusDoneMinutes` memo (lines 365-372): over focus tasks, sum
`actual_minutes ?? estimated_minutes ?? 0` of the done ones. -/
def focusDoneMinutes (tasks : List Task) : Nat :=
  (focusTasks tasks).foldl
    (fun total t =>
      if t.status = Status.done then
        total + (t.actual_minutes.getD (t.estimated_minutes.getD 0))
      else total)
    0

/-- The sort key used inside `focusSuggestion`:
`task.estimated_minutes ?? 999` (line 379). -/
def estKey (t : Task) : Nat :=
  t.estimated_minutes.getD 999

/-- The total preorder induced by the `focusSuggestion` sort comparator
`(a.estimated_minutes ?? 999) - (b.estimated_minutes ?? 999)` (lines
378-380). -/
def estLe (a b : Task) : Prop :=
  estKey a ≤ estKey b

instance : DecidableRel estLe := fun _ _ => Nat.decLe _ _

instance : IsTotal Task estLe :=
  ⟨fun a b => Nat.le_total (estKey a) (estKey b)⟩

instance : IsTrans Task estLe :=
  ⟨fun _ _ _ hab hbc => Nat.le_trans hab hbc⟩

/-- The `focusSuggestion` memo (lines 374-385):
`remaining = max(dailyTargetMinutes - focusDoneMinutes, 0)` (`Nat`
subtraction is exactly this); if there are no open focus tasks return
nothing; otherwise sort the open focus tasks by `estimated_minutes ?? 999`
(stably) and return the first whose `estimated_minutes ?? 0 <= remaining`,
falling back to `sorted[0]`. -/
def focusSuggestion (tasks : List Task) (dailyTargetMinutes : Nat) : Option Task :=
  let remaining := dailyTargetMinutes - focusDoneMinutes tasks
  let opn := focusOpenTasks tasks
  if opn.isEmpty then none
  else
    let sorted := opn.insertionSort estLe
    match sorted.find? (fun t => decide (t.estimated_minutes.getD 0 ≤ remaining)) with
    | some t => some t
    | none => sorted.head?

/-! ### Calendar export (src/unnamed/part_000 lines 51-86) -/

/-- One `VEVENT` block produced by `buildCalendarExport`: the task id used
in the `UID`, the task title used in the `SUMMARY`, and the start/end
instants (in ms since epoch) that the `DTSTART`/`DTEND` stamps are formatted
from. -/
structure CalEvent where
  taskId : Nat
  summary : String
  startMs : Nat
  endMs : Nat
deriving DecidableEq, Repr

/-- The filter `tasks.filter(task => task.estimated_minutes)` (line 61):
JavaScript truthiness, so both a missing estimate and a `0` estimate are
dropped. -/
def estTruthy (t : Task) : Bool :=
  match t.estimated_minutes with
  | none => false
  | some n => n != 0

/-- The event-construction loop of `buildCalendarExport` (lines 62-76):
each task yields an event `[cursor, cursor + estimated_minutes * 60000)`
and the cursor then advances past the event end plus the fixed 5-minute
buffer (`eventEnd.getTime() + 5 * 60 * 1000`, line 66). -/
def eventsFrom (cursor : Nat) : List Task → List CalEvent
  | [] => []
  | t :: rest =>
    let duration := t.estimated_minutes.getD 0 * 60 * 1000
    { taskId := t.id, summary := t.title, startMs := cursor, endMs := cursor + duration }
      :: eventsFrom (cursor + duration + 5 * 60 * 1000) rest

/-- The event sequence of `buildCalendarExport(tasks)` evaluated at wall
clock `now`: the first cursor is `Date.now() + 5 * 60 * 1000` (line 58) and
only truthy-estimate tasks survive the filter (line 61).  The surrounding
`VCALENDAR`/`VEVENT` text assembly (lines 67-85) is a rendering of exactly
these events and carries no further event structure. -/
def calendarEvents (now : Nat) (tasks : List Task) : List CalEvent :=
  eventsFrom (now + 5 * 60 * 1000) (tasks.filter estTruthy)

/-! ### Store update model (src/frontend/src/api.ts `taskApi.update`) -/

/-- A per-field (optional-field) task update as sent to `taskApi.update(id, fields)`,
restricted to the fields the core sends.  A field holds `none` when it is
absent from the payload; `focus_rank?`/`actual_minutes?` carry
`Option Nat` values since the API can store a number or clear to null. -/
structure TaskUpdate where
  is_focus? : Option Bool := none
  focus_rank? : Option (Option Nat) := none
  actual_minutes? : Option (Option Nat) := none
  status? : Option Status := none
deriving DecidableEq, Repr

/-- Modelled from the spec: the Store's `updateTask` endpoint taking optional fields
contract (spec §6) — the backend implementing it is part of the repository
but not under src/.  Per the contract it updates field-by-field: exactly
the provided fields change, every field absent from the payload keeps its
stored value, and the updated task is returned. -/
def applyUpdate (t : Task) (u : TaskUpdate) : Task :=
  { t with
    is_focus := u.is_focus?.getD t.is_focus
    focus_rank := u.focus_rank?.getD t.focus_rank
    actual_minutes := u.actual_minutes?.getD t.actual_minutes
    status := u.status?.getD t.status }

/-- The combined round trip used throughout the component for single-task
mutations: `taskApi.update(id, u)` followed by
`setTasks(prev => prev.map(item => item.id === id ? updated : item))`
(e.g. lines 882-885). -/
def updateTaskInList (tasks : List Task) (id : Nat) (u : TaskUpdate) : List Task :=
  tasks.map (fun t => if t.id = id then applyUpdate t u else t)

/-- The `toggleFocus` handler (lines 880-895), success path: sends the single-field
payload `{ is_focus: !task.is_focus }` and replaces the task in local state
with the server's response. -/
def toggleFocus (tasks : List Task) (task : Task) : List Task :=
  updateTaskInList tasks task.id { is_focus? := some (!task.is_focus) }

/-! ### Focus timer (src/unnamed/part_000 lines 288-292, 571-614, 947-978) -/

/-- The timer's component state: `activeTimerId`, `timerSeconds`,
`timerTargetSeconds` (lines 288-290), `timerStartRef` (line 291) and
`timerAlarmFiredRef` (line 292). -/
structure TimerState where
  activeTimerId : Option Nat
  timerSeconds : Nat
  timerTargetSeconds : Option Nat
  timerStart : Option Nat
  alarmFired : Bool
deriving DecidableEq, Repr

/-- The initial timer state at mount: no active task, zero elapsed, no
target, no start instant, alarm flag clear. -/
def timerInit : TimerState :=
  { activeTimerId := none, timerSeconds := 0, timerTargetSeconds := none,
    timerStart := none, alarmFired := false }

/-- The `startTimer(task)` handler (lines 947-954): records `Date.now()` as the start
instant, resets elapsed to 0, clears the alarm-fired flag, sets the target
to `(task.estimated_minutes ?? 25) * 60` seconds and makes the task the
active one.  It performs no Store call. -/
def startTimer (task : Task) (now : Nat) (_s : TimerState) : TimerState :=
  { activeTimerId := some task.id, timerSeconds := 0,
    timerTargetSeconds := some (task.estimated_minutes.getD 25 * 60),
    timerStart := some now, alarmFired := false }

/-- The expiry effect (lines 581-614): when a task is active, a target is
set, the alarm has not fired and `timerSeconds >= timerTargetSeconds`, it
sets the alarm-fired flag, emits the alarm (the returned `Bool`), and
clears the active id, target, start instant and elapsed counter. -/
def expiryCheck (s : TimerState) : TimerState × Bool :=
  match s.activeTimerId, s.timerTargetSeconds with
  | some _, some target =>
    if s.alarmFired then (s, false)
    else if target ≤ s.timerSeconds then
      ({ activeTimerId := none, timerSeconds := 0, timerTargetSeconds := none,
         timerStart := none, alarmFired := true }, true)
    else (s, false)
  | _, _ => (s, false)

/-- One timer tick at wall clock `now`: the interval effect (lines 571-579)
exists only while a task is active and recomputes
`timerSeconds = floor((Date.now() - start) / 1000)` from the wall clock,
after which the expiry effect (lines 581-614) runs on the new state.  With
no active task a tick changes nothing and fires nothing. -/
def tick (now : Nat) (s : TimerState) : TimerState × Bool :=
  match s.activeTimerId with
  | none => (s, false)
  | some _ => expiryCheck { s with timerSeconds := (now - s.timerStart.getD now) / 1000 }

/-- The minutes credited by `stopTimer`:
`Math.max(1, Math.round(timerSeconds / 60))` (line 958).  For a natural
`s`, `Math.round(s / 60) = floor((s + 30) / 60)` exactly (round half up),
which is `Nat` division. -/
def elapsedMinutesOf (timerSeconds : Nat) : Nat :=
  max 1 ((timerSeconds + 30) / 60)

/-- The `stopTimer` handler (lines 956-978), up to the Store call: look up the active
task, compute the credited minutes, reset the whole timer state to idle
(lines 959-962, before any awaiting), and — when the task exists — request
`actual_minutes = (task.actual_minutes ?? 0) + elapsedMinutes` be
persisted.  The second component is the requested update
`(taskId, newActualMinutes)`, `none` when no task was found (line 963). -/
def stopTimer (tasks : List Task) (s : TimerState) : TimerState × Option (Nat × Nat) :=
  let task? : Option Task := match s.activeTimerId with
    | none => none
    | some id => tasks.find? (fun t => t.id == id)
  let elapsedMinutes := elapsedMinutesOf s.timerSeconds
  let reset : TimerState :=
    { activeTimerId := none, timerSeconds := 0, timerTargetSeconds := none,
      timerStart := none, alarmFired := s.alarmFired }
  match task? with
  | none => (reset, none)
  | some task => (reset, some (task.id, task.actual_minutes.getD 0 + elapsedMinutes))

/-- The observable outcome of a full `stopTimer` call: the timer state
afterwards, the list of Store update requests issued, the resulting local
task list, and whether the error notification path ran. -/
structure StopOutcome where
  timer : TimerState
  requests : List (Nat × Nat)
  tasks : List Task
  errorNotified : Bool
deriving Repr

/-- The `stopTimer` handler (lines 956-978) including the Store interaction:
exactly one `taskApi.update` is issued when the active task exists; on
success the returned task replaces the local copy (lines 965-970); on
failure (`catch`, lines 974-977) the local task list is left unchanged,
`setError` plus an error-tone notification run, and nothing is retried.
The timer state was already reset either way (lines 959-962). -/
def stopTimerApp (tasks : List Task) (s : TimerState) (storeFails : Bool) : StopOutcome :=
  match stopTimer tasks s with
  | (reset, none) => { timer := reset, requests := [], tasks := tasks, errorNotified := false }
  | (reset, some (id, newActual)) =>
    if storeFails then
      { timer := reset, requests := [(id, newActual)], tasks := tasks, errorNotified := true }
    else
      { timer := reset, requests := [(id, newActual)],
        tasks := updateTaskInList tasks id { actual_minutes? := some (some newActual) },
        errorNotified := false }

/-- The component state the timer handlers touch: the local task list and
the timer state. -/
structure AppState where
  tasks : List Task
  timer : TimerState
deriving Repr

/-- The `startTimer` handler (lines 947-954) at the component level: it only rewrites
the timer state; it issues no `taskApi` call (empty request list) and does
not touch the task list. -/
def startTimerApp (task : Task) (now : Nat) (app : AppState) : AppState × List (Nat × TaskUpdate) :=
  ({ app with timer := startTimer task now app.timer }, [])

/-! ### Agenda reordering (src/unnamed/part_000 lines 1029-1070, 1128-1136) -/

/-- The `arrayMove(array, from, to)` helper from `@dnd-kit/sortable`: remove the
element at `from` and reinsert it at `to`.  `handleDragEnd` (lines
1128-1136) only calls it with indices found by `findIndex` and checked
`!= -1`, so the out-of-range branch is unreachable there. -/
def arrayMove (l : List α) (i j : Nat) : List α :=
  match l[i]? with
  | none => l
  | some x => (l.eraseIdx i).insertIdx j x

/-- The rank-assignment pass of `reorderAgenda` (lines 1058-1062):
`reordered.map((t, i) => update(t.id, { focus_rank: i }))` — after reload
each task in the new order carries `focus_rank = its positional index`,
counting from `i`. -/
def assignRanksFrom (i : Nat) : List Task → List Task
  | [] => []
  | t :: rest => { t with focus_rank := some i } :: assignRanksFrom (i + 1) rest

/-- The `reorderAgenda(fromIndex, toIndex)` handler (lines 1054-1070) as the resulting
agenda: `arrayMove` the current agenda, then persist
`focus_rank = 0, 1, ...` along the new order. -/
def reorderAgenda (l : List Task) (fromIndex toIndex : Nat) : List Task :=
  assignRanksFrom 0 (arrayMove l fromIndex toIndex)

/-! ### Spec-side ordering for claim C1 -/

/-- The ordering claimed by the spec for the agenda, stated from the spec's
words (not from the code): `focus_rank` ascending with a missing
`focus_rank` treated as plus infinity — after every present rank, however
large — and ties broken by `id` ascending. -/
def specRankLe (a b : Task) : Bool :=
  match a.focus_rank, b.focus_rank with
  | none, none => decide (a.id ≤ b.id)
  | none, some _ => false
  | some _, none => true
  | some ra, some rb =>
    if ra = rb then decide (a.id ≤ b.id) else decide (ra < rb)

/-! ### Concrete tasks used in counterexamples and witnesses -/

/-- A focus task with the large but present rank 100000. -/
def c1t1 : Task :=
  { id := 1, title := "alpha", status := Status.open_, priority := 2,
    estimated_minutes := none, actual_minutes := none, is_focus := true,
    focus_rank := some 100000 }

/-- A focus task with no rank. -/
def c1t2 : Task :=
  { id := 2, title := "beta", status := Status.open_, priority := 2,
    estimated_minutes := none, actual_minutes := none, is_focus := true,
    focus_rank := none }

/-- C1: the claim fails on the code.  With a present `focus_rank` of
100000, `agendaTasks` sorts the rank-less task (sentinel 99999) BEFORE it,
while the claim's ordering — missing rank treated as plus infinity, after
every present rank however large — demands the opposite order, so the
computed agenda is not sorted by the claimed relation. -/
theorem c1_counterexample :
    agendaTasks [c1t1, c1t2] = [c1t2, c1t1]
    ∧ c1t1.focus_rank = some 100000
    ∧ c1t2.focus_rank = none
    ∧ ¬ List.Pairwise (fun a b => specRankLe a b = true) (agendaTasks [c1t1, c1t2]) := by
  refine ⟨by decide, rfl, rfl, by decide⟩

/-- C1 (amended): `agendaTasks` returns exactly the `is_focus` tasks
(as a permutation of the filter, and membership-exactly), sorted by
`focus_rank` ascending with a missing `focus_rank` treated as the sentinel
99999 — so it sorts after every present rank below 99999, ties with a
present rank of exactly 99999, and sorts BEFORE any larger present rank —
with ties broken by `id` ascending. -/
theorem c1_amended (tasks : List Task) :
    List.Perm (agendaTasks tasks) (tasks.filter (fun t => t.is_focus))
    ∧ List.Pairwise agendaLe (agendaTasks tasks)
    ∧ ∀ t, t ∈ agendaTasks tasks ↔ (t ∈ tasks ∧ t.is_focus = true) := by
  refine ⟨List.perm_insertionSort agendaLe _, List.sorted_insertionSort agendaLe _, ?_⟩
  intro t
  unfold agendaTasks
  rw [(List.perm_insertionSort agendaLe _).mem_iff, List.mem_filter]

/-- A focused task carrying rank 3, removed from the agenda in the C2
scenario. -/
def c2t1 : Task :=
  { id := 1, title := "one", status := Status.open_, priority := 2,
    estimated_minutes := none, actual_minutes := none, is_focus := true,
    focus_rank := some 3 }

/-- A second focus member, rank 5, untouched by the C2 scenario. -/
def c2t2 : Task :=
  { id := 2, title := "two", status := Status.open_, priority := 2,
    estimated_minutes := none, actual_minutes := none, is_focus := true,
    focus_rank := some 5 }

/-- C2: the claim fails on the code (under the spec-modelled per-field-update
Store).  `toggleFocus` sends only `{ is_focus: false }`, so the removed
task's `focus_rank` is NOT cleared: it stays `some 3`, contradicting the
claim that both `is_focus` and `focus_rank` are cleared. -/
theorem c2_counterexample :
    (toggleFocus [c2t1, c2t2] c2t1).map (fun t => (t.id, t.is_focus, t.focus_rank))
      = [(1, false, some 3), (2, true, some 5)]
    ∧ ¬ (∀ t ∈ toggleFocus [c2t1, c2t2] c2t1, t.id = 1 → t.focus_rank = none) := by
  refine ⟨by decide, by decide⟩

/-- C2 (amended): removing a focused task via `toggleFocus` clears
`is_focus` on that task but leaves its `focus_rank` unchanged (not
cleared), and leaves every other task — in particular the `focus_rank` of
every other focus member — entirely unchanged (no renumbering). -/
theorem c2_amended (tasks : List Task) (task : Task) (h : task.is_focus = true) :
    List.Forall₂
      (fun t u => (t.id ≠ task.id → u = t) ∧ (t.id = task.id → u = { t with is_focus := false }))
      tasks (toggleFocus tasks task) := by
  unfold toggleFocus updateTaskInList
  induction tasks with
  | nil => exact List.Forall₂.nil
  | cons a rest ih =>
    rw [List.map_cons]
    refine List.Forall₂.cons ⟨fun hne => ?_, fun heq => ?_⟩ ih
    · rw [if_neg hne]
    · rw [if_pos heq]
      simp [applyUpdate, h]

/-- C2 (amended) witness: the amended frame property at the concrete
two-task agenda. -/
theorem c2_amended_witness :
    List.Forall₂
      (fun t u => (t.id ≠ c2t1.id → u = t) ∧ (t.id = c2t1.id → u = { t with is_focus := false }))
      [c2t1, c2t2] (toggleFocus [c2t1, c2t2] c2t1) :=
  c2_amended [c2t1, c2t2] c2t1 rfl

/-- An open focus task estimated at 1000 minutes — more than the 999
sentinel. -/
def c3x1 : Task :=
  { id := 1, title := "big", status := Status.open_, priority := 2,
    estimated_minutes := some 1000, actual_minutes := none, is_focus := true,
    focus_rank := some 0 }

/-- An open focus task with no estimate. -/
def c3x2 : Task :=
  { id := 2, title := "vague", status := Status.open_, priority := 2,
    estimated_minutes := none, actual_minutes := none, is_focus := true,
    focus_rank := some 1 }

/-- In a sorted list, the first element satisfying `p` has the smallest
`estKey` among all elements satisfying `p`. -/
theorem estLe_find_min {p : Task → Bool} :
    ∀ {l : List Task}, List.Pairwise estLe l → ∀ {t : Task}, l.find? p = some t →
      ∀ u ∈ l, p u = true → estKey t ≤ estKey u := by
  intro l
  induction l with
  | nil => intro _ t ht; simp at ht
  | cons a rest ih =>
    intro hp t hfind u hu hpu
    rw [List.pairwise_cons] at hp
    by_cases hpa : p a = true
    · rw [List.find?_cons_of_pos _ hpa] at hfind
      injection hfind with h
      subst h
      rcases List.mem_cons.mp hu with rfl | hu2
      · exact Nat.le_refl _
      · exact hp.1 u hu2
    · rw [List.find?_cons_of_neg _ (by simpa using hpa)] at hfind
      rcases List.mem_cons.mp hu with rfl | hu2
      · exact absurd hpu hpa
      · exact ih hp.2 hfind u hu2 hpu

/-- C3: the claim fails on the code.  With open focus tasks estimated
`some 1000` and `none` and `remaining = 2000`, the claim — missing
estimate sorting last among open members, smallest fitting estimate
returned — demands the 1000-minute task (1000 <= 2000 and it sorts before
the estimate-less one).  The code sorts the estimate-less task at the 999
sentinel, before 1000, treats its missing estimate as 0 in the fit test,
and returns it instead. -/
theorem c3_counterexample :
    focusSuggestion [c3x1, c3x2] 2000 = some c3x2
    ∧ c3x2.estimated_minutes = none
    ∧ c3x1.estimated_minutes = some 1000
    ∧ c3x1.estimated_minutes.getD 0 ≤ 2000 - focusDoneMinutes [c3x1, c3x2]
    ∧ focusSuggestion [c3x1, c3x2] 2000 ≠ some c3x1 := by
  refine ⟨by decide, rfl, rfl, by decide, by decide⟩

/-- The `est: 5` open focus task from the spec's worked example. -/
def c3t5 : Task :=
  { id := 1, title := "small", status := Status.open_, priority := 2,
    estimated_minutes := some 5, actual_minutes := none, is_focus := true,
    focus_rank := some 0 }

/-- The `est: 30` open focus task from the spec's worked example. -/
def c3t30 : Task :=
  { id := 2, title := "medium", status := Status.open_, priority := 2,
    estimated_minutes := some 30, actual_minutes := none, is_focus := true,
    focus_rank := some 1 }

/-- A done focus task contributing `doneMinutes = 50` in the spec's worked
example. -/
def c3done : Task :=
  { id := 3, title := "logged", status := Status.done, priority := 2,
    estimated_minutes := some 40, actual_minutes := some 50, is_focus := true,
    focus_rank := some 2 }

/-- Reduction of `focusSuggestion` once the open focus set is known to be
non-empty. -/
theorem focusSuggestion_eq (tasks : List Task) (dtm : Nat)
    (h : (focusOpenTasks tasks).isEmpty = false) :
    focusSuggestion tasks dtm =
      match ((focusOpenTasks tasks).insertionSort estLe).find?
          (fun t => decide (t.estimated_minutes.getD 0 ≤ dtm - focusDoneMinutes tasks)) with
      | some t => some t
      | none => ((focusOpenTasks tasks).insertionSort estLe).head? := by
  simp [focusSuggestion, h]

/-- C3 (amended): on an agenda with no open member `focusSuggestion`
returns nothing; any returned task is an open focus member; the returned
task has the smallest `estimated_minutes ?? 999` key among open members
whose `estimated_minutes ?? 0` fits within
`remaining = dailyTargetMinutes - doneMinutes` (so a MISSING estimate
sorts at the 999 sentinel — before any larger present estimate — and
counts as 0 minutes in the fit test, always fitting), or, when no member
fits, the smallest-key member overall; and on the spec's worked example
(target 60, done 50, open estimates 5 and 30) it returns the `est: 5`
task. -/
theorem c3_amended (tasks : List Task) (dtm : Nat) :
    (focusOpenTasks tasks = [] → focusSuggestion tasks dtm = none)
    ∧ (∀ t, focusSuggestion tasks dtm = some t →
        t ∈ focusOpenTasks tasks
        ∧ ((t.estimated_minutes.getD 0 ≤ dtm - focusDoneMinutes tasks
              ∧ ∀ u ∈ focusOpenTasks tasks,
                  u.estimated_minutes.getD 0 ≤ dtm - focusDoneMinutes tasks →
                    estKey t ≤ estKey u)
            ∨ ((∀ u ∈ focusOpenTasks tasks,
                  ¬ u.estimated_minutes.getD 0 ≤ dtm - focusDoneMinutes tasks)
                ∧ ∀ u ∈ focusOpenTasks tasks, estKey t ≤ estKey u)))
    ∧ (focusOpenTasks tasks ≠ [] → (focusSuggestion tasks dtm).isSome = true)
    ∧ focusSuggestion [c3t5, c3t30, c3done] 60 = some c3t5 := by
  refine ⟨fun h => by simp [focusSuggestion, h], ?_, ?_, by decide⟩
  · intro t ht
    by_cases hemp : (focusOpenTasks tasks).isEmpty = true
    · rw [show focusSuggestion tasks dtm = none from by simp [focusSuggestion, hemp]] at ht
      exact absurd ht (by simp)
    · rw [focusSuggestion_eq tasks dtm (by simpa using hemp)] at ht
      have hsorted : List.Pairwise estLe ((focusOpenTasks tasks).insertionSort estLe) :=
        List.sorted_insertionSort estLe (focusOpenTasks tasks)
      have hmem : ∀ {x : Task},
          x ∈ (focusOpenTasks tasks).insertionSort estLe ↔ x ∈ focusOpenTasks tasks :=
        fun {x} => (List.perm_insertionSort estLe (focusOpenTasks tasks)).mem_iff
      cases hfind : ((focusOpenTasks tasks).insertionSort estLe).find?
          (fun t => decide (t.estimated_minutes.getD 0 ≤ dtm - focusDoneMinutes tasks)) with
      | some t0 =>
        rw [hfind] at ht
        injection ht with ht
        subst ht
        refine ⟨hmem.mp (List.mem_of_find?_eq_some hfind), Or.inl ⟨?_, ?_⟩⟩
        · have hp := List.find?_some hfind
          exact of_decide_eq_true hp
        · intro u hu hufit
          exact estLe_find_min hsorted hfind u (hmem.mpr hu) (decide_eq_true hufit)
      | none =>
        rw [hfind] at ht
        have hnofit := List.find?_eq_none.mp hfind
        cases hs : (focusOpenTasks tasks).insertionSort estLe with
        | nil => rw [hs] at ht; exact absurd ht (by simp)
        | cons a rest =>
          rw [hs] at ht
          injection ht with ht
          subst ht
          rw [hs] at hsorted
          rw [List.pairwise_cons] at hsorted
          refine ⟨hmem.mp (hs ▸ List.mem_cons_self a rest), Or.inr ⟨?_, ?_⟩⟩
          · intro u hu
            have := hnofit u (hs ▸ hmem.mpr hu)
            simpa using this
          · intro u hu
            rcases List.mem_cons.mp (hs ▸ hmem.mpr hu) with rfl | hu2
            · exact Nat.le_refl _
            · exact hsorted.1 u hu2
  · intro hne
    have hemp : (focusOpenTasks tasks).isEmpty = false := by
      cases hx : focusOpenTasks tasks with
      | nil => exact absurd hx hne
      | cons a rest => simp [hx]
    rw [focusSuggestion_eq tasks dtm hemp]
    cases hfind : ((focusOpenTasks tasks).insertionSort estLe).find?
        (fun t => decide (t.estimated_minutes.getD 0 ≤ dtm - focusDoneMinutes tasks)) with
    | some t0 => simp
    | none =>
      have hlen : ((focusOpenTasks tasks).insertionSort estLe).length
          = (focusOpenTasks tasks).length :=
        (List.perm_insertionSort estLe (focusOpenTasks tasks)).length_eq
      cases hs : (focusOpenTasks tasks).insertionSort estLe with
      | nil =>
        rw [hs] at hlen
        exact absurd (List.length_eq_zero.mp hlen.symm) hne
      | cons a rest => simp [hs]

/-- C3 (amended) witness: the spec's worked example, via the amended
theorem. -/
theorem c3_amended_witness : focusSuggestion [c3t5, c3t30, c3done] 60 = some c3t5 :=
  (c3_amended [c3t5, c3t30, c3done] 60).2.2.2

/-- C4: once a run started by `startTimer` reaches its target, the tick
fires the expiry alarm (second component `true`) exactly once and resets
the timer to idle — active task id, target, start instant and elapsed
counter all cleared, alarm-fired flag latched — and every subsequent tick
without an intervening `startTimer` fires nothing and changes nothing. -/
theorem c4_expiry_once (s0 : TimerState) (task : Task) (t0 now : Nat)
    (h : task.estimated_minutes.getD 25 * 60 ≤ (now - t0) / 1000) :
    (tick now (startTimer task t0 s0)).2 = true
    ∧ (tick now (startTimer task t0 s0)).1
        = { activeTimerId := none, timerSeconds := 0, timerTargetSeconds := none,
            timerStart := none, alarmFired := true }
    ∧ ∀ m, tick m (tick now (startTimer task t0 s0)).1
        = ((tick now (startTimer task t0 s0)).1, false) := by
  have hstep : tick now (startTimer task t0 s0)
      = ({ activeTimerId := none, timerSeconds := 0, timerTargetSeconds := none,
           timerStart := none, alarmFired := true }, true) := by
    simp [startTimer, tick, expiryCheck, h]
  refine ⟨by rw [hstep], by rw [hstep], ?_⟩
  intro m
  rw [hstep]
  rfl

/-- A 25-minute task for the timer scenarios: its target is 1500 seconds. -/
def c4task : Task :=
  { id := 1, title := "deep work", status := Status.open_, priority := 2,
    estimated_minutes := some 25, actual_minutes := none, is_focus := true,
    focus_rank := some 0 }

/-- C4 witness: start on a 25-minute task, tick at 1500 elapsed seconds —
the alarm fires once, and the tick one second later fires nothing. -/
theorem c4_witness :
    (tick 1500000 (startTimer c4task 0 timerInit)).2 = true
    ∧ tick 1501000 (tick 1500000 (startTimer c4task 0 timerInit)).1
        = ((tick 1500000 (startTimer c4task 0 timerInit)).1, false) := by
  have h := c4_expiry_once timerInit c4task 0 1500000 (by decide)
  exact ⟨h.1, h.2.2 1501000⟩

/-- C5: when a run is stopped with its task present, `stopTimer` resets the
timer to idle and requests `actual_minutes = (task.actual_minutes ?? 0) +
max(1, round(elapsedSeconds / 60))` for the active task; the credited
minutes are always at least 1, and a 10-second run credits exactly 1. -/
theorem c5_stop_credits (tasks : List Task) (s : TimerState) (id : Nat) (task : Task)
    (h1 : s.activeTimerId = some id)
    (h2 : tasks.find? (fun t => t.id == id) = some task) :
    stopTimer tasks s
      = ({ activeTimerId := none, timerSeconds := 0, timerTargetSeconds := none,
           timerStart := none, alarmFired := s.alarmFired },
         some (task.id, task.actual_minutes.getD 0 + elapsedMinutesOf s.timerSeconds))
    ∧ 1 ≤ elapsedMinutesOf s.timerSeconds
    ∧ elapsedMinutesOf 10 = 1 := by
  refine ⟨by simp [stopTimer, h1, h2], ?_, by decide⟩
  unfold elapsedMinutesOf
  exact Nat.le_max_left _ _

/-- A task with no logged minutes yet, used for the stop scenarios. -/
def c5task : Task :=
  { id := 1, title := "quick fix", status := Status.open_, priority := 2,
    estimated_minutes := some 25, actual_minutes := none, is_focus := true,
    focus_rank := some 0 }

/-- A running timer state 10 seconds after start. -/
def c5state : TimerState :=
  { activeTimerId := some 1, timerSeconds := 10, timerTargetSeconds := some 1500,
    timerStart := some 0, alarmFired := false }

/-- C5 witness: stopping 10 seconds into the run credits exactly 1 minute
(never 0) and resets the timer to idle. -/
theorem c5_witness :
    stopTimer [c5task] c5state
      = ({ activeTimerId := none, timerSeconds := 0, timerTargetSeconds := none,
           timerStart := none, alarmFired := false }, some (1, 1)) := by
  rw [(c5_stop_credits [c5task] c5state 1 c5task rfl rfl).1]
  rfl

/-- C8: when the Store update issued by `stopTimer` fails, the timer state
still resets to idle (active id, target, start instant and elapsed counter
cleared), the failure surfaces as an error notification, exactly one update
request was issued (no retry), and the local task list is unchanged — the
credited time is not re-applied. -/
theorem c8_stop_failure (tasks : List Task) (s : TimerState) (id : Nat) (task : Task)
    (h1 : s.activeTimerId = some id)
    (h2 : tasks.find? (fun t => t.id == id) = some task) :
    stopTimerApp tasks s true
      = { timer := { activeTimerId := none, timerSeconds := 0, timerTargetSeconds := none,
                     timerStart := none, alarmFired := s.alarmFired },
          requests := [(task.id, task.actual_minutes.getD 0 + elapsedMinutesOf s.timerSeconds)],
          tasks := tasks, errorNotified := true } := by
  simp [stopTimerApp, stopTimer, h1, h2]

/-- C8 witness: the failing stop at the concrete 10-second run — timer
idle, one request, task list untouched, error notified. -/
theorem c8_witness :
    stopTimerApp [c5task] c5state true
      = { timer := { activeTimerId := none, timerSeconds := 0, timerTargetSeconds := none,
                     timerStart := none, alarmFired := false },
          requests := [(1, 1)], tasks := [c5task], errorNotified := true } := by
  rw [c8_stop_failure [c5task] c5state 1 c5task rfl rfl]
  rfl

/-- C10: starting a timer while another task's run is active unconditionally
replaces the run — elapsed resets to 0, the new task's own target and start
instant are installed — and no Store request is issued: the task list, and
with it the interrupted task's `actual_minutes`, is untouched. -/
theorem c10_start_replaces (app : AppState) (task : Task) (now otherId : Nat)
    (_h : app.timer.activeTimerId = some otherId) :
    (startTimerApp task now app).1.timer
      = { activeTimerId := some task.id, timerSeconds := 0,
          timerTargetSeconds := some (task.estimated_minutes.getD 25 * 60),
          timerStart := some now, alarmFired := false }
    ∧ (startTimerApp task now app).2 = []
    ∧ (startTimerApp task now app).1.tasks = app.tasks :=
  ⟨rfl, rfl, rfl⟩

/-- A component state whose timer is mid-run on task 2. -/
def c10app : AppState :=
  { tasks := [c5task],
    timer := { activeTimerId := some 2, timerSeconds := 42,
               timerTargetSeconds := some 600, timerStart := some 0,
               alarmFired := false } }

/-- C10 witness: starting task 1 while task 2 is running replaces the run
with a fresh one and leaves the task list alone. -/
theorem c10_witness :
    (startTimerApp c4task 5000 c10app).1.timer
      = { activeTimerId := some 1, timerSeconds := 0, timerTargetSeconds := some 1500,
          timerStart := some 5000, alarmFired := false }
    ∧ (startTimerApp c4task 5000 c10app).2 = []
    ∧ (startTimerApp c4task 5000 c10app).1.tasks = [c5task] := by
  have h := c10_start_replaces c10app c4task 5000 2 rfl
  exact ⟨h.1.trans (by decide), h.2.1, h.2.2⟩

/-- The events carry the filtered tasks' ids, in order. -/
theorem eventsFrom_map_taskId :
    ∀ (c : Nat) (l : List Task), (eventsFrom c l).map CalEvent.taskId = l.map Task.id
  | _, [] => rfl
  | c, t :: rest => by
    simp only [eventsFrom, List.map_cons, List.map_cons]
    exact congrArg _ (eventsFrom_map_taskId _ rest)

/-- Each event ends its own task's estimate (in ms) after it starts. -/
theorem eventsFrom_zip :
    ∀ (c : Nat) (l : List Task), ∀ p ∈ (eventsFrom c l).zip l,
      p.1.endMs = p.1.startMs + p.2.estimated_minutes.getD 0 * 60 * 1000
  | _, [], p, hp => by simp [eventsFrom] at hp
  | c, t :: rest, p, hp => by
    rw [eventsFrom, List.zip_cons_cons, List.mem_cons] at hp
    rcases hp with rfl | hp
    · rfl
    · exact eventsFrom_zip _ rest p hp

/-- Consecutive events are separated by exactly the 5-minute buffer. -/
theorem eventsFrom_chain :
    ∀ (c : Nat) (l : List Task),
      List.Chain' (fun e1 e2 => e2.startMs = e1.endMs + 5 * 60 * 1000) (eventsFrom c l)
  | _, [] => List.chain'_nil
  | _, [_] => List.chain'_singleton _
  | c, t :: u :: rest => by
    rw [eventsFrom, eventsFrom, List.chain'_cons]
    exact ⟨rfl, by rw [← eventsFrom]; exact eventsFrom_chain _ (u :: rest)⟩

/-- The first event starts exactly at the initial cursor. -/
theorem eventsFrom_head (c : Nat) (l : List Task) (e : CalEvent)
    (h : (eventsFrom c l).head? = some e) : e.startMs = c := by
  cases l with
  | nil => exact absurd h (by simp [eventsFrom])
  | cons t rest =>
    rw [eventsFrom] at h
    rw [List.head?_cons] at h
    injection h with h
    rw [← h]

/-- The `est: 30` task A of the claimed export example. -/
def c6a : Task :=
  { id := 1, title := "A", status := Status.open_, priority := 2,
    estimated_minutes := some 30, actual_minutes := none, is_focus := true,
    focus_rank := some 0 }

/-- The estimate-less task B of the claimed export example. -/
def c6b : Task :=
  { id := 2, title := "B", status := Status.open_, priority := 2,
    estimated_minutes := none, actual_minutes := none, is_focus := true,
    focus_rank := some 1 }

/-- The `est: 20` task C of the claimed export example. -/
def c6c : Task :=
  { id := 3, title := "C", status := Status.open_, priority := 2,
    estimated_minutes := some 20, actual_minutes := none, is_focus := true,
    focus_rank := some 2 }

/-- A task with a present but zero estimate. -/
def c6zero : Task :=
  { id := 7, title := "Zero", status := Status.open_, priority := 2,
    estimated_minutes := some 0, actual_minutes := none, is_focus := true,
    focus_rank := some 0 }

/-- C6: the claim fails on the code.  A task whose `estimated_minutes` is
present but 0 is not "lacking an estimate", so under the claim it would be
emitted (as an empty event); the truthiness filter drops it and the export
contains no event at all for a single zero-estimate task. -/
theorem c6_counterexample :
    calendarEvents 0 [c6zero] = []
    ∧ c6zero.estimated_minutes ≠ none := by
  exact ⟨rfl, by decide⟩

/-- C6 (amended): the calendar export emits events in input order, skipping
tasks lacking an estimate AND tasks whose estimate is 0 (the filter tests
truthiness); each emitted event occupies `[cursor, cursor +
estimated_minutes)`, each subsequent event starts at the previous event's
end plus the fixed 5-minute gap, the first event starts at the initial
cursor, and with zero estimable tasks the event set is empty.  On the
example `[A est:30, B est:null, C est:20]` exactly two events are emitted,
with C starting at A's end plus the gap. -/
theorem c6_amended (now : Nat) (tasks : List Task) :
    (calendarEvents now tasks).map CalEvent.taskId = (tasks.filter estTruthy).map Task.id
    ∧ List.Chain' (fun e1 e2 => e2.startMs = e1.endMs + 5 * 60 * 1000)
        (calendarEvents now tasks)
    ∧ (∀ p ∈ (calendarEvents now tasks).zip (tasks.filter estTruthy),
        p.1.endMs = p.1.startMs + p.2.estimated_minutes.getD 0 * 60 * 1000)
    ∧ (tasks.filter estTruthy = [] → calendarEvents now tasks = [])
    ∧ (∀ e, (calendarEvents now tasks).head? = some e → e.startMs = now + 5 * 60 * 1000)
    ∧ calendarEvents 0 [c6a, c6b, c6c]
        = [{ taskId := 1, summary := "A", startMs := 300000, endMs := 2100000 },
           { taskId := 3, summary := "C", startMs := 2400000, endMs := 3600000 }] := by
  refine ⟨eventsFrom_map_taskId _ _, eventsFrom_chain _ _, eventsFrom_zip _ _,
    fun h => by rw [calendarEvents, h]; rfl,
    fun e he => eventsFrom_head _ _ e he, by decide⟩

/-- C6 (amended) witness: the A/B/C example discharges the per-event
conjuncts at a concrete input — two events, B skipped, C starting at A's
end plus the 5-minute gap. -/
theorem c6_amended_witness :
    calendarEvents 0 [c6a, c6b, c6c]
      = [{ taskId := 1, summary := "A", startMs := 300000, endMs := 2100000 },
         { taskId := 3, summary := "C", startMs := 2400000, endMs := 3600000 }] :=
  (c6_amended 0 [c6a, c6b, c6c]).2.2.2.2.2

/-- C9: the truthiness filter means a task with `estimated_minutes = 0`
never produces an event: deleting it from anywhere in the input leaves the
export unchanged, and it fails the filter outright. -/
theorem c9_zero_estimate_skipped (now : Nat) (pre post : List Task) (t : Task)
    (h : t.estimated_minutes = some 0) :
    calendarEvents now (pre ++ t :: post) = calendarEvents now (pre ++ post)
    ∧ estTruthy t = false := by
  have hf : estTruthy t = false := by
    rw [estTruthy, h]
    rfl
  refine ⟨?_, hf⟩
  rw [calendarEvents, calendarEvents, List.filter_append, List.filter_append,
    List.filter_cons, hf]
  rfl

/-- C9 witness: inserting the zero-estimate task between A and C changes
nothing in the export. -/
theorem c9_witness :
    calendarEvents 0 [c6a, c6zero, c6c] = calendarEvents 0 [c6a, c6c]
    ∧ estTruthy c6zero = false :=
  c9_zero_estimate_skipped 0 [c6a] [c6c] c6zero rfl

/-- Erasing an index and reinserting the erased element there restores the
list. -/
theorem insertIdx_getElem_eraseIdx :
    ∀ (l : List α) (i : Nat) (h : i < l.length), (l.eraseIdx i).insertIdx i (l.get ⟨i, h⟩) = l
  | _ :: _, 0, _ => rfl
  | a :: l, i + 1, h => by
    rw [List.eraseIdx_cons_succ, List.insertIdx_succ_cons]
    exact congrArg (a :: ·) (insertIdx_getElem_eraseIdx l i (Nat.lt_of_succ_lt_succ h))

/-- Mapping commutes with `eraseIdx`. -/
theorem map_eraseIdx2 (f : α → β) :
    ∀ (l : List α) (i : Nat), (l.eraseIdx i).map f = (l.map f).eraseIdx i
  | [], _ => rfl
  | _ :: _, 0 => rfl
  | a :: l, i + 1 => by
    rw [List.eraseIdx_cons_succ, List.map_cons, List.map_cons, List.eraseIdx_cons_succ]
    exact congrArg (f a :: ·) (map_eraseIdx2 f l i)

/-- Mapping commutes with `insertIdx`. -/
theorem map_insertIdx2 (f : α → β) :
    ∀ (i : Nat) (x : α) (l : List α), (l.insertIdx i x).map f = (l.map f).insertIdx i (f x)
  | 0, _, _ => rfl
  | _ + 1, _, [] => rfl
  | i + 1, x, a :: l => by
    rw [List.insertIdx_succ_cons, List.map_cons, List.map_cons, List.insertIdx_succ_cons]
    exact congrArg (f a :: ·) (map_insertIdx2 f i x l)

/-- An `arrayMove` with valid indices preserves the length. -/
theorem arrayMove_length {l : List α} {i j : Nat} (hi : i < l.length) (hj : j < l.length) :
    (arrayMove l i j).length = l.length := by
  rw [arrayMove, List.getElem?_eq_getElem hi]
  have h1 : (l.eraseIdx i).length = l.length - 1 := by
    rw [List.length_eraseIdx]
    simp [hi]
  rw [List.length_insertIdx _ _ (by omega)]
  omega

/-- Mapping commutes with `arrayMove`. -/
theorem map_arrayMove (f : α → β) (l : List α) (i j : Nat) :
    (arrayMove l i j).map f = arrayMove (l.map f) i j := by
  rw [arrayMove, arrayMove, List.getElem?_map]
  cases h : l[i]? with
  | none => rfl
  | some x =>
    show (List.insertIdx j x (l.eraseIdx i)).map f
        = List.insertIdx j (f x) ((l.map f).eraseIdx i)
    rw [map_insertIdx2, map_eraseIdx2]

/-- Moving an element from `i` to `j` and then from `j` back to `i` is the
identity on lists, given both indices are in range. -/
theorem arrayMove_arrayMove {l : List α} {i j : Nat} (hi : i < l.length) (hj : j < l.length) :
    arrayMove (arrayMove l i j) j i = l := by
  have h1 : (l.eraseIdx i).length = l.length - 1 := by
    rw [List.length_eraseIdx]
    simp [hi]
  have hjle : j ≤ (l.eraseIdx i).length := by omega
  have hfirst : arrayMove l i j = (l.eraseIdx i).insertIdx j (l.get ⟨i, hi⟩) := by
    rw [arrayMove, List.getElem?_eq_getElem hi]
    rfl
  have hMlen : ((l.eraseIdx i).insertIdx j (l.get ⟨i, hi⟩)).length = l.length := by
    rw [List.length_insertIdx _ _ hjle]
    omega
  have hjM : j < ((l.eraseIdx i).insertIdx j (l.get ⟨i, hi⟩)).length := by omega
  have hMget : ((l.eraseIdx i).insertIdx j (l.get ⟨i, hi⟩))[j]? = some (l.get ⟨i, hi⟩) := by
    rw [List.getElem?_eq_getElem hjM]
    rw [List.getElem_insertIdx_self _ _ _ hjle]
  rw [hfirst, arrayMove, hMget, List.eraseIdx_insertIdx]
  exact insertIdx_getElem_eraseIdx l i hi

/-- Rank assignment does not change the id sequence. -/
theorem assignRanksFrom_map_id :
    ∀ (i : Nat) (l : List Task), (assignRanksFrom i l).map Task.id = l.map Task.id
  | _, [] => rfl
  | i, t :: rest => by
    rw [assignRanksFrom, List.map_cons, List.map_cons]
    exact congrArg _ (assignRanksFrom_map_id (i + 1) rest)

/-- Rank assignment writes exactly the consecutive ranks `i, i+1, ...`
along the list. -/
theorem assignRanksFrom_map_rank :
    ∀ (i : Nat) (l : List Task),
      (assignRanksFrom i l).map Task.focus_rank = (List.range' i l.length).map some
  | _, [] => rfl
  | i, t :: rest => by
    rw [assignRanksFrom, List.map_cons, List.length_cons, List.range'_succ, List.map_cons]
    exact congrArg _ (assignRanksFrom_map_rank (i + 1) rest)

/-- Rank assignment preserves the length. -/
theorem assignRanksFrom_length (i : Nat) (l : List Task) :
    (assignRanksFrom i l).length = l.length := by
  have h := congrArg List.length (assignRanksFrom_map_id i l)
  simpa using h

/-- C7: `reorder(agenda, a, b)` followed by `reorder(result, b, a)`, for
valid distinct indices, restores the original agenda order: the final task
id sequence equals the original one, and the final rank assignment is
exactly `0, 1, ..., n-1` along that restored order, so sorting by
`(focus_rank, id)` reproduces the original agenda. -/
theorem c7_reorder_inverse (l : List Task) (a b : Nat)
    (ha : a < l.length) (hb : b < l.length) (_hab : a ≠ b) :
    (reorderAgenda (reorderAgenda l a b) b a).map Task.id = l.map Task.id
    ∧ (reorderAgenda (reorderAgenda l a b) b a).map Task.focus_rank
        = (List.range l.length).map some := by
  have hM : (arrayMove l a b).length = l.length := arrayMove_length ha hb
  have hX : (assignRanksFrom 0 (arrayMove l a b)).length = l.length := by
    rw [assignRanksFrom_length]
    exact hM
  constructor
  · rw [reorderAgenda, assignRanksFrom_map_id, map_arrayMove, reorderAgenda,
      assignRanksFrom_map_id, map_arrayMove]
    exact arrayMove_arrayMove (by simpa using ha) (by simpa using hb)
  · have hlen : (arrayMove (reorderAgenda l a b) b a).length = l.length := by
      rw [reorderAgenda]
      rw [arrayMove_length (by omega) (by omega)]
      exact hX
    rw [reorderAgenda, assignRanksFrom_map_rank, hlen, List.range_eq_range']

/-- Agenda member with id 11 for the C7 witness. -/
def c7t1 : Task :=
  { id := 11, title := "first", status := Status.open_, priority := 2,
    estimated_minutes := some 10, actual_minutes := none, is_focus := true,
    focus_rank := some 0 }

/-- Agenda member with id 12 for the C7 witness. -/
def c7t2 : Task :=
  { id := 12, title := "second", status := Status.open_, priority := 2,
    estimated_minutes := some 20, actual_minutes := none, is_focus := true,
    focus_rank := some 1 }

/-- Agenda member with id 13 for the C7 witness. -/
def c7t3 : Task :=
  { id := 13, title := "third", status := Status.open_, priority := 2,
    estimated_minutes := some 30, actual_minutes := none, is_focus := true,
    focus_rank := some 2 }

/-- C7 witness: moving index 0 to index 2 and back on a three-task agenda
restores the id order `[11, 12, 13]` with fresh consecutive ranks. -/
theorem c7_witness :
    (reorderAgenda (reorderAgenda [c7t1, c7t2, c7t3] 0 2) 2 0).map Task.id = [11, 12, 13]
    ∧ (reorderAgenda (reorderAgenda [c7t1, c7t2, c7t3] 0 2) 2 0).map Task.focus_rank
        = [some 0, some 1, some 2] := by
  have h := c7_reorder_inverse [c7t1, c7t2, c7t3] 0 2 (by decide) (by decide) (by decide)
  exact ⟨h.1.trans (by decide), h.2.trans (by decide)⟩

end FocusFlow
